import Mathlib

/-!
Verification of `gear_inventory_check.py` against its specification.

The Python source is shallowly embedded below: pure helpers become Lean
functions, the SQLite-backed persistence in `main`/`db_ops` becomes explicit
state passing over a list of rows, the product-catalog HTTP API becomes a
finite catalog value, and Python exceptions become `Except` errors.
-/

namespace GearInventory

/-- Python `str.split(sep)` for a one-character separator, on the character
sequence of the string: splits at every occurrence of `sep`, keeping empty
parts, so the result always has one part more than the number of separators
(`"".split(c) = [""]`, `"a<".split('<') = ["a", ""]`). -/
def pySplit (sep : Char) : List Char → List (List Char)
  | [] => [[]]
  | x :: xs =>
    let rest := pySplit sep xs
    if x = sep then [] :: rest
    else
      match rest with
      | [] => [[x]]
      | h :: t => (x :: h) :: t

/-- Python `str.strip()`: remove leading and trailing whitespace characters. -/
def pyStrip (l : List Char) : List Char :=
  ((l.dropWhile Char.isWhitespace).reverse.dropWhile Char.isWhitespace).reverse

/-- Embedding of `split_address` (gear_inventory_check.py lines 62-75).

Python:
```
address = email_address.split('<')
if len(address) == 1:
    return (address[0], '')
if address[0]:
    return (address[1][:-1], address[0].strip())
return (address[1][:-1], '')
```
`str.split('<')` splits on every occurrence of `'<'` (so a string with two
`'<'` yields three parts); `s[:-1]` drops the final character (and is `""` on
`""`); `strip()` trims surrounding whitespace; a non-empty string is truthy. -/
def split_address (email_address : String) : String × String :=
  let address := pySplit '<' email_address.data
  match address with
  | [] => (email_address, "")
  | [a0] => (String.mk a0, "")
  | a0 :: a1 :: _ =>
    if a0 ≠ [] then (String.mk a1.dropLast, String.mk (pyStrip a0))
    else (String.mk a1.dropLast, "")

/-- The text after the first `'<'` of a string, as the claim about
`split_address` phrases it: everything following the first `'<'`,
including any later `'<'` characters. -/
def textAfterFirstLt (s : String) : String :=
  String.mk (List.intercalate ['<'] ((pySplit '<' s.data).tail))

/-- A leaf stock record as built by the Python code:
`{"id": item["id"], "name": item["name"], "quantity": item["stock_quantity"]}`. -/
structure StockRecord where
  id : Int
  name : String
  quantity : Rat
deriving DecidableEq

/-- A product object as the catalog API returns it: fields `id`, `name`,
`type` (`"simple"` or `"variable"` for well-formed entries), `stock_quantity`
and `variations`, the latter a sequence of child product ids. -/
structure Product where
  id : Int
  name : String
  type : String
  stock_quantity : Rat
  variations : List Int
deriving DecidableEq

/-- Errors a run of the fetch code can raise: `typeError` is Python's
`TypeError` from subscripting a non-dict value (`variation["variations"]`
when `variation` is an integer id), `fetchError` a failed
`GET products/{id}`, and `fuelExhausted` the exhaustion of the explicit
bound that makes the source's unbounded recursion well-founded here. -/
inductive PyError where
  | typeError
  | fetchError (i : Int)
  | fuelExhausted
deriving DecidableEq

/-- A value handed to `handle_variations`. Python is dynamically typed: the
call in `get_current_stock_values` passes product dicts (`obj`), while the
recursive call in `handle_variation` passes `item['variations']`, a list of
bare integer ids (`intId`). -/
inductive PyElem where
  | intId (i : Int)
  | obj (p : Product)
deriving DecidableEq

/-- `GET {API_BASE}products/{i}`: the remote catalog, modelled as a finite
list of products looked up by id; an unknown id is a failed request. -/
def fetchProduct (cat : List Product) (i : Int) : Except PyError Product :=
  match cat.find? (fun p => p.id == i) with
  | some p => .ok p
  | none => .error (.fetchError i)

/-- Arguments of the two mutually recursive Python functions:
`ids` for `handle_variation` (a list of variation ids) and `elems` for
`handle_variations` (a list of dynamically typed values). -/
inductive FetchArgs where
  | ids (l : List Int)
  | elems (l : List PyElem)

/-- The mutual recursion of `handle_variation` (lines 142-152) and
`handle_variations` (lines 155-160), written as one function over `FetchArgs`
with a fuel bound so that it is structurally recursive.

`ids` case (= `handle_variation`): for each id, fetch the product; if its
`variations` list is non-empty the source calls
`handle_variations(item['variations'])` — passing the raw id list, hence
`.elems` of `intId`s — otherwise it appends the leaf record.

`elems` case (= `handle_variations`): for each element, the source evaluates
`variation["variations"]`; on a product dict this recurses into
`handle_variation`, on an integer id it raises `TypeError`. -/
def fetchLoop (cat : List Product) : Nat → FetchArgs → Except PyError (List StockRecord)
  | 0, _ => .error .fuelExhausted
  | Nat.succ _, .ids [] => .ok []
  | Nat.succ n, .ids (v :: rest) => do
    let item ← fetchProduct cat v
    let head ←
      if item.variations ≠ [] then
        fetchLoop cat n (.elems (item.variations.map PyElem.intId))
      else
        pure [⟨item.id, item.name, item.stock_quantity⟩]
    let tail ← fetchLoop cat n (.ids rest)
    pure (head ++ tail)
  | Nat.succ _, .elems [] => .ok []
  | Nat.succ n, .elems (a :: rest) => do
    let head ←
      match a with
      | .intId _ => Except.error PyError.typeError
      | .obj p => fetchLoop cat n (.ids p.variations)
    let tail ← fetchLoop cat n (.elems rest)
    pure (head ++ tail)

/-- `handle_variation(variations)` — process a list of variation ids. -/
def handle_variation (cat : List Product) (fuel : Nat) (ids : List Int) :
    Except PyError (List StockRecord) :=
  fetchLoop cat fuel (.ids ids)

/-- `handle_variations(variations)` — process a list of (dynamically typed)
variation values. -/
def handle_variations (cat : List Product) (fuel : Nat) (elems : List PyElem) :
    Except PyError (List StockRecord) :=
  fetchLoop cat fuel (.elems elems)

/-- Embedding of `get_current_stock_values` (lines 162-172): fetch the full
product list `top`, keep the `simple` products as records, and expand the
`variable` products through `handle_variations`. -/
def get_current_stock_values (cat : List Product) (top : List Product) (fuel : Nat) :
    Except PyError (List StockRecord) := do
  let variations := top.filter (fun x => x.type == "variable")
  let products := (top.filter (fun x => x.type == "simple")).map
    (fun x => ({ id := x.id, name := x.name, quantity := x.stock_quantity } : StockRecord))
  let rest ← handle_variations cat fuel (variations.map PyElem.obj)
  pure (products ++ rest)

/-- A catalog with one-level nesting: variable product 10 has a single
variation 11, itself a leaf. -/
def catalogDepth1 : List Product := [⟨11, "leaf11", "", 1, []⟩]

/-- Top-level product list for the one-level catalog. -/
def topDepth1 : List Product := [⟨10, "parent", "variable", 0, [11]⟩]

/-- A catalog with two-level nesting: variable product 10 has variation 11,
which itself reports a sub-variation 12, a leaf with quantity 5. -/
def catalogDepth2 : List Product :=
  [⟨11, "mid", "", 0, [12]⟩, ⟨12, "leaf12", "", 5, []⟩]

/-- Top-level product list for the two-level catalog. -/
def topDepth2 : List Product := [⟨10, "parent", "variable", 0, [11]⟩]

/-- A timestamp as produced by SQLite's `datetime('now','localtime')`: the
calendar day (the part the SQL `date(...)` function extracts) plus the time
of day. -/
structure Stamp where
  day : String
  time : String
deriving DecidableEq

/-- One row of the `INVENTORY` table: columns `DATE, ID, NAME, QUANTITY`
(create_database, lines 129-138). -/
structure Row where
  date : Stamp
  id : Int
  name : String
  quantity : Rat
deriving DecidableEq

/-- `DELETE FROM inventory WHERE date(date) = ?` with `?` bound to
`date.today()` (line 202): keeps exactly the rows whose capture day differs
from `today`. -/
def deleteToday (today : String) (db : List Row) : List Row :=
  db.filter (fun r => r.date.day != today)

/-- `VACUUM` (line 203): storage compaction, no effect on table contents. -/
def vacuumDb (db : List Row) : List Row := db

/-- `INSERT INTO inventory(date, id, name, quantity)
VALUES(datetime('now','localtime'), :id, :name, :quantity)` executed over all
records (line 204): appends one row per record, stamped `now`. -/
def insertRows (now : Stamp) (records : List StockRecord) (db : List Row) : List Row :=
  db ++ records.map (fun p =>
    ({ date := now, id := p.id, name := p.name, quantity := p.quantity } : Row))

/-- The replace-today operation of `main` (lines 202-204): delete today's
rows, vacuum, then insert the fetched records stamped with the current local
timestamp. -/
def replace_today (now : Stamp) (today : String) (records : List StockRecord)
    (db : List Row) : List Row :=
  insertRows now records (vacuumDb (deleteToday today db))

/-- The statements `main` runs inside the `db_ops` block (lines 200-204),
in source order. -/
inductive DbStmt where
  | createTable
  | deleteStmt
  | vacuumStmt
  | insertStmt
deriving DecidableEq

/-- Effect of one statement of the block on the stored rows.
`CREATE TABLE IF NOT EXISTS` never alters existing rows. -/
def execStmt (now : Stamp) (today : String) (records : List StockRecord) :
    DbStmt → List Row → List Row
  | .createTable, db => db
  | .deleteStmt, db => deleteToday today db
  | .vacuumStmt, db => vacuumDb db
  | .insertStmt, db => insertRows now records db

/-- The `db_ops` block of `main` as its statement sequence. -/
def dbBlock : List DbStmt :=
  [DbStmt.createTable, DbStmt.deleteStmt, DbStmt.vacuumStmt, DbStmt.insertStmt]

/-- The rows durably stored once the first `k` statements of the block have
executed. `db_ops` opens the connection with `isolation_level=None`
(line 123), i.e. SQLite autocommit: each statement's effect is committed the
moment it runs (the `VACUUM` on line 203 in fact requires this), and the
context manager has no rollback handling, so an execution that dies after
statement `k` leaves exactly this state. -/
def persistedAfter (now : Stamp) (today : String) (records : List StockRecord)
    (k : Nat) (db : List Row) : List Row :=
  (dbBlock.take k).foldl (fun s stmt => execStmt now today records stmt s) db

/-- The "one row per (date, id)" invariant: any two distinct stored rows
sharing a capture day have different product ids. -/
def oneRowPerDayId (db : List Row) : Prop :=
  db.Pairwise (fun r1 r2 => r1.date.day = r2.date.day → r1.id ≠ r2.id)

/-- The inputs of one pipeline run: the clock readings
(`now` = `datetime('now','localtime')`, `today` = `date.today()`) and the
fetched records. -/
structure RunInput where
  now : Stamp
  today : String
  records : List StockRecord
deriving DecidableEq

/-- A sequence of pipeline runs starting from database `db`: each run
performs the replace-today operation of `main`. -/
def runAll (runs : List RunInput) (db : List Row) : List Row :=
  runs.foldl (fun s run => replace_today run.now run.today run.records s) db

/-- Observable effects of one invocation of `main` (lines 189-211), with the
outside world passed in explicitly: the clock readings, the records the
catalog fetch yields, and the database contents at entry. -/
structure RunEffects where
  fetchedInventory : Bool
  db : List Row
  printedSnapshot : Option (List StockRecord)
  printedDiagnostic : Option String
deriving DecidableEq

/-- Embedding of `main` (lines 189-211): the inventory fetch always runs
(line 197); the database block always runs (lines 200-204); the snapshot is
printed when `print_arg` is set (lines 206-207); when `debug` is set the
fixed diagnostic `"Cartridge Status"` is printed just before the end-of-body
return (lines 209-211). -/
def main_run (debug print_arg status : Bool) (now : Stamp) (today : String)
    (records : List StockRecord) (db : List Row) : RunEffects :=
  { fetchedInventory := true
    db := replace_today now today records db
    printedSnapshot := if print_arg then some records else none
    printedDiagnostic := if debug then some "Cartridge Status" else none }

/-- The stages of `main`, for stating in which order they execute. -/
inductive MainEv where
  | fetchInventory
  | ensureSchema
  | replaceToday
  | printSnapshot
  | printDiagnostic
deriving DecidableEq

/-- The stage order of `main`, read off lines 189-211: the catalog fetch
(line 197) precedes the database block, which runs `create_database`
(line 201) and then the delete/vacuum/insert (lines 202-204); then the
optional print (lines 206-207) and, under debug, the diagnostic
(lines 209-211). -/
def mainTrace (debug print_arg : Bool) : List MainEv :=
  [MainEv.fetchInventory, MainEv.ensureSchema, MainEv.replaceToday]
    ++ (if print_arg then [MainEv.printSnapshot] else [])
    ++ (if debug then [MainEv.printDiagnostic] else [])

/-- An `Envelope` as `mail_results` constructs it (lines 79-83): resolved
from-address pair, subject, html body. -/
structure Envelope where
  from_addr : String × String
  subject : String
  html_body : String
deriving DecidableEq

/-- Observable actions of the mailing code: constructing an envelope, or
invoking a send/transport operation on one. -/
inductive MailAction where
  | buildEnvelope (e : Envelope)
  | send (e : Envelope)
deriving DecidableEq

/-- Embedding of `mail_results` (lines 77-83): builds an `Envelope` from the
`MAIL_FROM` environment value (via `split_address`), the subject and the
body, then falls off the end of the function body — it invokes no send
operation and returns Python's `None`. -/
def mail_results (mail_from subject body : String) :
    List MailAction × Option Unit :=
  ([MailAction.buildEnvelope ⟨split_address mail_from, subject, body⟩], none)

/-- Embedding of `email_admins` (lines 85-95): formats the fixed subject and
the two-part body and delegates to `mail_results`. -/
def email_admins (mail_from low status : String) :
    List MailAction × Option Unit :=
  mail_results mail_from "Need to reorder ink for plotter"
    ("\n        <p>Time to order some more of the following inkjet ink</p>\n        <pre>"
      ++ low
      ++ "</pre>\n        <br />\n        <p>These are the overall cartridge levels</p>\n        <pre>"
      ++ status ++ "</pre>\n    ")

end GearInventory

namespace GearInventory

/-- C5: `split_address` maps each of the four supported address forms as the
spec states: a bare address, an angle-bracketed address, a display name with
a space before the bracket, and a display name with no space. -/
theorem C5_split_address_four_forms :
    split_address "a@b.com" = ("a@b.com", "") ∧
    split_address "<a@b.com>" = ("a@b.com", "") ∧
    split_address "Name <a@b.com>" = ("a@b.com", "Name") ∧
    split_address "Name<a@b.com>" = ("a@b.com", "Name") := by
  refine ⟨?_, ?_, ?_, ?_⟩ <;> decide

/-- `pySplit` produces one part more than the number of separators. -/
theorem pySplit_length (sep : Char) (l : List Char) :
    (pySplit sep l).length = l.count sep + 1 := by
  induction l with
  | nil => rfl
  | cons x xs ih =>
    by_cases hx : x = sep
    · subst hx
      simp [pySplit, List.count_cons, ih]
    · have hne : pySplit sep xs ≠ [] := by
        intro h
        rw [h] at ih
        simp at ih
      cases hrest : pySplit sep xs with
      | nil => exact absurd hrest hne
      | cons h t =>
        rw [hrest] at ih
        simp [pySplit, hrest, hx, List.count_cons]
        simpa using ih

/-- C10, counterexample: with two `'<'` characters in the input, the address
returned by `split_address` is NOT the text after the first `'<'` minus its
final character (the split on every `'<'` keeps only the text up to the
second `'<'`). -/
theorem C10_counterexample :
    "A<b@c.d<e".data.contains '<' = true ∧
    (split_address "A<b@c.d<e").1 ≠ String.mk (textAfterFirstLt "A<b@c.d<e").data.dropLast := by
  decide

/-- C10, amended: for every input string containing exactly one `'<'`,
`split_address` removes the final character of the text after the `'<'`
unconditionally, whether or not that character is `'>'`; in particular the
unterminated form `"Name <a@b.com"` yields the truncated address `"a@b.co"`.
(With two or more `'<'` the address is instead the text between the first
and second `'<'` minus its final character.) -/
theorem C10_truncates_after_single_lt :
    (∀ s : String, s.data.count '<' = 1 →
      (split_address s).1 = String.mk (textAfterFirstLt s).data.dropLast) ∧
    split_address "Name <a@b.com" = ("a@b.co", "Name") := by
  constructor
  · intro s hs
    have hlen : (pySplit '<' s.data).length = 2 := by
      rw [pySplit_length, hs]
    match hsplit : pySplit '<' s.data with
    | [] => rw [hsplit] at hlen; simp at hlen
    | [a0] => rw [hsplit] at hlen; simp at hlen
    | a0 :: a1 :: a2 :: rest => rw [hsplit] at hlen; simp at hlen
    | [a0, a1] =>
      simp only [split_address, textAfterFirstLt, hsplit, List.tail_cons,
        List.intercalate, List.intersperse, List.flatten]
      by_cases h0 : a0 = []
      · simp [h0]
      · simp [h0]
  · decide

/-- Closed witness for the amended C10 statement at a concrete input. -/
theorem C10_truncates_after_single_lt_witness :
    "x<y".data.count '<' = 1 ∧
    (split_address "x<y").1 = String.mk (textAfterFirstLt "x<y").data.dropLast :=
  ⟨by decide, C10_truncates_after_single_lt.1 "x<y" (by decide)⟩

/-- C1: the fetch flattens a one-level variation tree to its leaf records,
but on a two-level tree it raises `TypeError` instead of returning the leaf
set: `handle_variation` passes the raw id list `item['variations']` to
`handle_variations`, which subscripts each element as a dict. The claimed
depth-invariant flattening therefore fails for every depth `N ≥ 2`. -/
theorem C1_depth_two_nesting_raises_type_error :
    get_current_stock_values catalogDepth1 topDepth1 100
      = Except.ok [{ id := 11, name := "leaf11", quantity := 1 }] ∧
    get_current_stock_values catalogDepth2 topDepth2 100
      = Except.error PyError.typeError :=
  ⟨rfl, rfl⟩

/-- C9: `get_current_stock_values` ignores every product whose `type` is
neither `"simple"` nor `"variable"`: restricting the top-level product list
to those two types does not change the result, so other products contribute
no stock record. -/
theorem C9_other_product_types_omitted :
    ∀ (cat top : List Product) (fuel : Nat),
      get_current_stock_values cat
        (top.filter (fun x => x.type == "simple" || x.type == "variable")) fuel
      = get_current_stock_values cat top fuel := by
  intro cat top fuel
  have hs : (top.filter (fun x => x.type == "simple" || x.type == "variable")).filter
      (fun x => x.type == "simple") = top.filter (fun x => x.type == "simple") := by
    rw [List.filter_filter]
    refine List.filter_congr ?_
    intro x _
    cases h1 : x.type == "simple" <;> simp [h1]
  have hv : (top.filter (fun x => x.type == "simple" || x.type == "variable")).filter
      (fun x => x.type == "variable") = top.filter (fun x => x.type == "variable") := by
    rw [List.filter_filter]
    refine List.filter_congr ?_
    intro x _
    cases h1 : x.type == "variable" <;> simp [h1]
  simp only [get_current_stock_values, hs, hv]

/-- C2: the replace-today block is NOT atomic. `db_ops` opens the connection
in autocommit mode, so the delete is durable before the insert starts: a
failure between the two leaves today's snapshot empty — neither the pre-call
rows nor a full replacement. (The full block does implement delete-then
insert, third conjunct.) -/
theorem C2_crash_between_delete_and_insert_loses_rows :
    persistedAfter ⟨"2022-06-01", "12:00:00"⟩ "2022-06-01" [⟨1, "widget", 4⟩] 2
        [⟨⟨"2022-06-01", "07:00:00"⟩, 1, "widget", 3⟩] = [] ∧
    ([⟨⟨"2022-06-01", "07:00:00"⟩, 1, "widget", 3⟩] : List Row) ≠ [] ∧
    persistedAfter ⟨"2022-06-01", "12:00:00"⟩ "2022-06-01" [⟨1, "widget", 4⟩] 4
        [⟨⟨"2022-06-01", "07:00:00"⟩, 1, "widget", 3⟩]
      = replace_today ⟨"2022-06-01", "12:00:00"⟩ "2022-06-01" [⟨1, "widget", 4⟩]
          [⟨⟨"2022-06-01", "07:00:00"⟩, 1, "widget", 3⟩] :=
  ⟨rfl, by simp, rfl⟩

/-- C4: replace-today is idempotent. Two runs within the same local day with
the same record set (stamped `now1` and then `now2`, both falling on
`today`) leave the same stored rows as the single second run alone: the
second delete removes exactly the rows the first run inserted. -/
theorem C4_replace_today_idempotent
    (now1 now2 : Stamp) (today : String) (records : List StockRecord) (db : List Row)
    (h1 : now1.day = today) (h2 : now2.day = today) :
    replace_today now2 today records (replace_today now1 today records db)
      = replace_today now2 today records db := by
  simp only [replace_today, vacuumDb, insertRows, deleteToday]
  rw [List.filter_append, List.filter_filter]
  have hnil : (records.map (fun p =>
      ({ date := now1, id := p.id, name := p.name, quantity := p.quantity } : Row))).filter
        (fun r => r.date.day != today) = [] := by
    rw [List.filter_eq_nil_iff]
    intro r hr
    obtain ⟨p, _, rfl⟩ := List.mem_map.mp hr
    simp [h1]
  rw [hnil, List.append_nil]
  congr 1
  simp [Bool.and_self]

/-- Closed witness for C4 at concrete inputs: two same-day runs. -/
theorem C4_replace_today_idempotent_witness :
    (⟨"2022-06-01", "08:00:00"⟩ : Stamp).day = "2022-06-01" ∧
    (⟨"2022-06-01", "12:00:00"⟩ : Stamp).day = "2022-06-01" ∧
    replace_today ⟨"2022-06-01", "12:00:00"⟩ "2022-06-01" [⟨1, "widget", 2⟩]
        (replace_today ⟨"2022-06-01", "08:00:00"⟩ "2022-06-01" [⟨1, "widget", 2⟩] [])
      = replace_today ⟨"2022-06-01", "12:00:00"⟩ "2022-06-01" [⟨1, "widget", 2⟩] [] :=
  ⟨rfl, rfl,
    C4_replace_today_idempotent ⟨"2022-06-01", "08:00:00"⟩ ⟨"2022-06-01", "12:00:00"⟩
      "2022-06-01" [⟨1, "widget", 2⟩] [] rfl rfl⟩

/-- One replace-today run preserves the one-row-per-(day, id) invariant,
provided the inserted records carry pairwise distinct ids and the insert
stamp falls on the deleted day. -/
theorem replace_today_oneRowPerDayId
    {now : Stamp} {today : String} {records : List StockRecord} {db : List Row}
    (hday : now.day = today)
    (hids : (records.map StockRecord.id).Nodup)
    (hdb : oneRowPerDayId db) :
    oneRowPerDayId (replace_today now today records db) := by
  unfold oneRowPerDayId replace_today insertRows vacuumDb deleteToday
  rw [List.pairwise_append]
  refine ⟨List.Pairwise.filter _ hdb, ?_, ?_⟩
  · rw [List.pairwise_map]
    have h2 : records.Pairwise (fun p q => p.id ≠ q.id) := List.pairwise_map.mp hids
    refine List.Pairwise.imp ?_ h2
    intro a b h _
    exact h
  · intro a ha b hb
    have ha' : (a.date.day != today) = true := (List.mem_filter.mp ha).2
    simp only [bne_iff_ne, ne_eq] at ha'
    obtain ⟨p, _, rfl⟩ := List.mem_map.mp hb
    intro hdays
    exact absurd (hdays.trans hday) ha'

/-- C7: after any sequence of pipeline runs — each run a replace-today with
records carrying distinct product ids and a consistent local clock — a
database satisfying the one-row-per-(date, id) invariant still satisfies it:
same-day reruns replace rather than append, despite the table declaring no
uniqueness constraint. -/
theorem C7_one_row_per_day_id_invariant :
    ∀ (runs : List RunInput) (db : List Row),
      oneRowPerDayId db →
      (∀ run ∈ runs, run.now.day = run.today ∧ (run.records.map StockRecord.id).Nodup) →
      oneRowPerDayId (runAll runs db) := by
  intro runs
  induction runs with
  | nil =>
    intro db hdb _
    exact hdb
  | cons r rest ih =>
    intro db hdb hruns
    have hr := hruns r (List.mem_cons_self r rest)
    exact ih (replace_today r.now r.today r.records db)
      (replace_today_oneRowPerDayId hr.1 hr.2 hdb)
      (fun run hrun => hruns run (List.mem_cons_of_mem r hrun))

/-- Closed witness for C7: two same-day runs over the same two product ids,
starting from an empty table, end in a state with one row per (day, id). -/
theorem C7_one_row_per_day_id_invariant_witness :
    oneRowPerDayId ([] : List Row) ∧
    (∀ run ∈ ([⟨⟨"2022-06-01", "08:00:00"⟩, "2022-06-01", [⟨1, "a", 2⟩, ⟨2, "b", 3⟩]⟩,
               ⟨⟨"2022-06-01", "12:00:00"⟩, "2022-06-01", [⟨1, "a", 5⟩, ⟨2, "b", 6⟩]⟩] :
        List RunInput),
      run.now.day = run.today ∧ (run.records.map StockRecord.id).Nodup) ∧
    oneRowPerDayId (runAll
      [⟨⟨"2022-06-01", "08:00:00"⟩, "2022-06-01", [⟨1, "a", 2⟩, ⟨2, "b", 3⟩]⟩,
       ⟨⟨"2022-06-01", "12:00:00"⟩, "2022-06-01", [⟨1, "a", 5⟩, ⟨2, "b", 6⟩]⟩] []) :=
  ⟨List.Pairwise.nil, by decide,
    C7_one_row_per_day_id_invariant
      [⟨⟨"2022-06-01", "08:00:00"⟩, "2022-06-01", [⟨1, "a", 2⟩, ⟨2, "b", 3⟩]⟩,
       ⟨⟨"2022-06-01", "12:00:00"⟩, "2022-06-01", [⟨1, "a", 5⟩, ⟨2, "b", 6⟩]⟩]
      [] List.Pairwise.nil (by decide)⟩

/-- C3, counterexample: with the debug flag set, `main` still fetches the
inventory and still rewrites the snapshot store — at a concrete input the
store changes and the fetch is performed, refuting "skips persistence
... no inventory fetch/persist is performed". -/
theorem C3_counterexample :
    (main_run true false false ⟨"2022-06-01", "12:00:00"⟩ "2022-06-01"
        [⟨1, "widget", 4⟩] []).db ≠ [] ∧
    (main_run true false false ⟨"2022-06-01", "12:00:00"⟩ "2022-06-01"
        [⟨1, "widget", 4⟩] []).fetchedInventory = true := by
  constructor
  · simp [main_run, replace_today, insertRows, vacuumDb, deleteToday]
  · rfl

/-- C3, amended: when the debug flag is set, `main` behaves exactly as the
non-debug run with the same remaining flags — it still fetches the
inventory, replaces today's snapshot and optionally prints — and in
addition prints the fixed diagnostic `"Cartridge Status"` before returning;
the snapshot store is updated, not left unchanged. -/
theorem C3_debug_still_fetches_and_persists :
    ∀ (p s : Bool) (now : Stamp) (today : String) (records : List StockRecord)
      (db : List Row),
      main_run true p s now today records db
        = { main_run false p s now today records db with
            printedDiagnostic := some "Cartridge Status" } := by
  intro p s now today records db
  rfl

/-- C6, counterexample: in the normal (non-debug) flow the trace of `main`
is not the claimed order "ensure schema, then fetch, then replace, then
print" — the fetch happens first. -/
theorem C6_counterexample :
    mainTrace false true
      ≠ [MainEv.ensureSchema, MainEv.fetchInventory, MainEv.replaceToday,
         MainEv.printSnapshot] := by
  decide

/-- C6, amended: in every flow `main` performs its stages in the order:
fetch inventory (position 0), then ensure schema (position 1), then replace
today's snapshot (position 2), then print the formatted snapshot exactly
when the print flag is set. -/
theorem C6_fetch_precedes_schema :
    ∀ d p : Bool,
      (mainTrace d p).indexOf MainEv.fetchInventory = 0 ∧
      (mainTrace d p).indexOf MainEv.ensureSchema = 1 ∧
      (mainTrace d p).indexOf MainEv.replaceToday = 2 ∧
      (MainEv.printSnapshot ∈ mainTrace d p ↔ p = true) := by
  intro d p
  cases d <;> cases p <;> decide

/-- C8: for every subject and body, `mail_results` constructs an envelope
but performs no send action and returns `None`; `email_admins`, the only
caller, therefore transmits nothing either. -/
theorem C8_mail_results_never_sends :
    ∀ (mail_from subject body : String),
      (∀ e, MailAction.send e ∉ (mail_results mail_from subject body).1) ∧
      (mail_results mail_from subject body).2 = none ∧
      (∀ low status e, MailAction.send e ∉ (email_admins mail_from low status).1) := by
  intro mail_from subject body
  refine ⟨?_, rfl, ?_⟩
  · intro e he
    simp [mail_results] at he
  · intro low status e he
    simp [email_admins, mail_results] at he

end GearInventory
